import Mathlib

/-!
Verification of the PedalAssistant real-time core (`pedal_assistant.py`).

Shallow embedding conventions:
* Python floats are embedded as exact rationals `ℚ`; every comparison,
  clamp and arithmetic step of the source is exact, so `ℚ` is faithful
  for the threshold / normalization logic verified here.
* `numpy.sin` and `numpy.pi` are external numeric primitives of the
  numpy backend, not code of this repository; the tone-generation model
  is parameterized by `sinQ : ℚ → ℚ` (the backend sine) and `piQ : ℚ`
  (the backend constant `np.pi`).
* Python `dict` (insertion-ordered, unique keys) is embedded as an
  association list `List (String × β)`; assignment `d[k] = v` replaces
  the entry in place when the key is present and appends otherwise
  (`dset`), `del d[k]` removes the entry (`ddel`), `k in d` is
  `(dget k d).isSome`.
-/

/-- Lookup in an embedded Python dict: first entry whose key is `k`. -/
def dget {β : Type} (k : String) : List (String × β) → Option β
  | [] => none
  | kv :: rest => if kv.1 = k then some kv.2 else dget k rest

/-- Embedded Python dict assignment `d[k] = v`: replace in place if the
key is present, append otherwise. -/
def dset {β : Type} (k : String) (v : β) : List (String × β) → List (String × β)
  | [] => [(k, v)]
  | kv :: rest => if kv.1 = k then (k, v) :: rest else kv :: dset k v rest

/-- Embedded Python dict deletion `del d[k]`. -/
def ddel {β : Type} (k : String) (l : List (String × β)) : List (String × β) :=
  l.filter (fun kv => if kv.1 = k then false else true)

/-- `AlertHandler` (pedal_assistant.py, lines 307-320): threshold range,
tone parameters and the derived trigger flag. -/
structure AlertHandler where
  id : String
  min_threshold : ℚ
  max_threshold : ℚ
  frequency : Int
  volume : ℚ
  waveform : String
  is_triggered : Bool
deriving DecidableEq

/-- `AlertHandler.check_trigger` (lines 318-320): Python's chained
comparison `self.min_threshold <= value <= self.max_threshold`. -/
def AlertHandler.check_trigger (h : AlertHandler) (value : ℚ) : Bool :=
  decide (h.min_threshold ≤ value ∧ value ≤ h.max_threshold)



/-- `AudioMixer` mutable state (lines 326-340): sample rate, the
`_phases` dict (handler id → phase accumulator) and the
`_active_handlers` dict (handler id → handler). -/
structure AudioMixer where
  sample_rate : ℚ
  phases : List (String × ℚ)
  active_handlers : List (String × AlertHandler)
deriving DecidableEq

/-- Python float `x % m` for the positive moduli used by the source
(`% 1` and `% sample_rate`): `x - m * ⌊x / m⌋`. -/
def qfmod (x m : ℚ) : ℚ := x - m * ⌊x / m⌋

/-- `numpy.sign`: 1 for positive, -1 for negative, 0 for zero. -/
def qsign (x : ℚ) : ℚ := if 0 < x then 1 else if x < 0 then -1 else 0

/-- One sample of `AudioMixer._generate_tone`'s vectorized body
(lines 385-395): `t = (i + phase) / sample_rate`, branch on the
waveform string (sine / sawtooth / square, any other string falls
through to the final `else` sine branch), then scale by the volume. -/
def toneSample (sinQ : ℚ → ℚ) (piQ : ℚ) (h : AlertHandler) (rate : ℚ)
    (phase : ℚ) (i : ℕ) : ℚ :=
  let t : ℚ := ((i : ℚ) + phase) / rate
  let freq : ℚ := (h.frequency : ℚ)
  let raw : ℚ :=
    if h.waveform = "sine" then sinQ (2 * piQ * freq * t)
    else if h.waveform = "sawtooth" then 2 * qfmod (freq * t) 1 - 1
    else if h.waveform = "square" then qsign (sinQ (2 * piQ * freq * t))
    else sinQ (2 * piQ * freq * t)
  raw * h.volume

/-- `AudioMixer._generate_tone` (lines 375-395): insert phase 0 for an
unknown id, read the phase, emit `frames` samples from it, and store
back `(phase + frames) % sample_rate`. Returns the samples and the
mixer with the updated phase dict. -/
def generate_tone (sinQ : ℚ → ℚ) (piQ : ℚ) (m : AudioMixer)
    (h : AlertHandler) (frames : ℕ) : List ℚ × AudioMixer :=
  let phases0 := if (dget h.id m.phases).isSome then m.phases else dset h.id 0 m.phases
  let phase := (dget h.id phases0).getD 0
  let samples := (List.range frames).map (toneSample sinQ piQ h m.sample_rate phase)
  let phases1 := dset h.id (qfmod (phase + (frames : ℚ)) m.sample_rate) phases0
  (samples, { m with phases := phases1 })

/-- Elementwise sum of two sample buffers (`mixed += ...`, line 404). -/
def addBuf (a b : List ℚ) : List ℚ := List.zipWith (fun x y => x + y) a b

/-- The summation loop of `_audio_callback` (lines 402-404): start from a
zero buffer and accumulate every active handler's tone in dict order,
threading the phase state through. -/
def mixTones (sinQ : ℚ → ℚ) (piQ : ℚ) (m : AudioMixer) (frames : ℕ) :
    List ℚ × AudioMixer :=
  (m.active_handlers.map Prod.snd).foldl
    (fun acc h =>
      let r := generate_tone sinQ piQ acc.2 h frames
      (addBuf acc.1 r.1, r.2))
    (List.replicate frames 0, m)

/-- `np.max(np.abs(mixed))` (line 407) over a sample buffer. -/
def peak (l : List ℚ) : ℚ := l.foldl (fun a x => max a |x|) 0

/-- `AudioMixer._audio_callback` (lines 397-417). `lockAcquired` is the
result of the non-blocking `self._lock.acquire(blocking=False)`: on
failure, and likewise when the active set is empty, the output buffer is
filled with zeros; otherwise the summed buffer is divided by its peak
when that peak exceeds 1. Returns the output buffer and the mixer with
updated phase state. -/
def audio_callback (sinQ : ℚ → ℚ) (piQ : ℚ) (m : AudioMixer) (frames : ℕ)
    (lockAcquired : Bool) : List ℚ × AudioMixer :=
  if lockAcquired then
    if m.active_handlers.isEmpty then (List.replicate frames 0, m)
    else
      let r := mixTones sinQ piQ m frames
      let maxVal := peak r.1
      let out := if 1 < maxVal then r.1.map (fun x => x / maxVal) else r.1
      (out, r.2)
  else (List.replicate frames 0, m)

/-- `AudioMixer.start_handler` (lines 473-478): when the id is not yet
active, set its phase accumulator to 0 and add the handler to the
active dict; otherwise do nothing. -/
def start_handler (m : AudioMixer) (h : AlertHandler) : AudioMixer :=
  if (dget h.id m.active_handlers).isSome then m
  else { m with
          phases := dset h.id 0 m.phases,
          active_handlers := dset h.id h m.active_handlers }

/-- `AudioMixer.stop_handler` (lines 480-484): delete the id from the
active dict when present; `_phases` is left untouched. -/
def stop_handler (m : AudioMixer) (handler_id : String) : AudioMixer :=
  if (dget handler_id m.active_handlers).isSome then
    { m with active_handlers := ddel handler_id m.active_handlers }
  else m

/-- `AudioMixer.update_handler` (lines 486-490): when the id is active,
replace the stored handler in place; phases untouched. -/
def update_handler (m : AudioMixer) (h : AlertHandler) : AudioMixer :=
  if (dget h.id m.active_handlers).isSome then
    { m with active_handlers := dset h.id h m.active_handlers }
  else m

/-- A call issued by the trigger engine to the `AudioMixer`
(`start_handler` with the handler object, or `stop_handler` with the
handler id), lines 1232-1235. -/
inductive MixerCall where
  | start : AlertHandler → MixerCall
  | stop : String → MixerCall
deriving DecidableEq

/-- The trigger-engine state of one `AxisWidget` (lines 1104-1119):
the last evaluated axis value and the attached handlers. -/
structure AxisWidget where
  value : ℚ
  handlers : List AlertHandler
deriving DecidableEq

/-- `max(0.0, min(1.0, value))` (line 1220). -/
def clamp01 (v : ℚ) : ℚ := max 0 (min 1 v)

/-- The per-handler state change of one iteration of
`AxisWidget.update_value`'s loop (lines 1224-1229): the stored
`is_triggered` flag is overwritten only when it differs from the freshly
computed trigger boolean. -/
def stepHandler (v : ℚ) (h : AlertHandler) : AlertHandler :=
  if h.check_trigger v ≠ h.is_triggered then { h with is_triggered := h.check_trigger v }
  else h

/-- The mixer calls issued by one iteration of `AxisWidget.update_value`'s
loop (lines 1228-1235): on a rising edge, `start` with the handler (whose
flag was just set); on a falling edge, `stop` with its id; otherwise
nothing. -/
def handlerCalls (v : ℚ) (h : AlertHandler) : List MixerCall :=
  if h.check_trigger v ≠ h.is_triggered then
    if h.check_trigger v then [MixerCall.start (stepHandler v h)]
    else [MixerCall.stop h.id]
  else []

/-- `AxisWidget.update_value` (lines 1218-1243): clamp the incoming value
to [0,1], then run the loop body for every handler in order.  Each loop
iteration touches only its own handler and appends its own mixer calls,
so the loop is the map of `stepHandler` over the handlers together with
the concatenation of every handler's `handlerCalls`, in list order.
Returns the updated widget and the mixer-call sequence of this tick. -/
def update_value (w : AxisWidget) (value : ℚ) : AxisWidget × List MixerCall :=
  let new_value := clamp01 value
  ({ value := new_value, handlers := w.handlers.map (stepHandler new_value) },
   (w.handlers.map (handlerCalls new_value)).flatten)

/-- `JoystickReader` mutable state (lines 531-540): the opened joystick
(modelled by its backend index), axis count, the published axis-value
snapshot and the polling-thread flag. -/
structure JoystickReader where
  joystick : Option ℕ
  num_axes : ℕ
  axis_values : List ℚ
  running : Bool
deriving DecidableEq

/-- `JoystickReader.select_device` (lines 561-580).  The pygame backend
is modelled as a function from a device index to `Option ℕ`: `some n`
when `Joystick(idx)` opens with `n` axes, `none` when any backend call
of the `try` block raises `pygame.error`.  On success the axis snapshot
is reset to zeros and the reader thread is marked running; on failure
the `except` branch clears the joystick, axis count and snapshot and
returns 0.  `_stop_thread` at entry clears `running` in both cases. -/
def select_device (backend : ℕ → Option ℕ) (_r : JoystickReader)
    (device_idx : ℕ) : JoystickReader × ℕ :=
  match backend device_idx with
  | some n =>
      ({ joystick := some device_idx, num_axes := n,
         axis_values := List.replicate n 0, running := true }, n)
  | none =>
      ({ joystick := none, num_axes := 0, axis_values := [], running := false }, 0)

/-! ### Derived counting functions and concrete states used by witnesses -/

/-- Number of entries of an embedded dict carrying the key `k`. -/
def countKey {β : Type} (k : String) : List (String × β) → ℕ
  | [] => 0
  | kv :: rest => (if kv.1 = k then 1 else 0) + countKey k rest

/-- A concrete handler. -/
def hA : AlertHandler := AlertHandler.mk "a" 0 1 440 1 "sine" false

/-- The handler `hA` after an edit (new frequency and waveform, same id). -/
def hA2 : AlertHandler := AlertHandler.mk "a" 0 1 880 1 "square" false

/-- A concrete mixer state in which `hA` is active with phase 5. -/
def mixA : AudioMixer := AudioMixer.mk 44100 [("a", 5)] [("a", hA)]

/-- A concrete mixer state with no active handler. -/
def mixEmpty : AudioMixer := AudioMixer.mk 44100 [] []

/-- A concrete one-handler axis widget. -/
def wA : AxisWidget := AxisWidget.mk 0 [hA]

/-- Whether a mixer call is a `start` for the given handler id. -/
def isStartFor (hid : String) : MixerCall → Bool
  | MixerCall.start h => if h.id = hid then true else false
  | MixerCall.stop _ => false

/-- Number of `start` calls for the given id in a call sequence. -/
def startCount (hid : String) (calls : List MixerCall) : ℕ :=
  (calls.filter (isStartFor hid)).length

/-! ### Helper lemmas about the embedded dict operations -/

theorem dget_dset_self {β : Type} (k : String) (v : β) (l : List (String × β)) :
    dget k (dset k v l) = some v := by
  induction l with
  | nil => simp [dget, dset]
  | cons kv rest ih =>
      by_cases hk : kv.1 = k <;> simp [dget, dset, hk, ih]

theorem dget_eq_none_iff {β : Type} (k : String) (l : List (String × β)) :
    dget k l = none ↔ ∀ kv ∈ l, kv.1 ≠ k := by
  induction l with
  | nil => simp [dget]
  | cons kv rest ih =>
      by_cases hk : kv.1 = k <;> simp [dget, hk, ih]

theorem dget_ddel_self {β : Type} (k : String) (l : List (String × β)) :
    dget k (ddel k l) = none := by
  rw [dget_eq_none_iff]
  intro kv hkv
  have := List.of_mem_filter hkv
  by_cases hk : kv.1 = k <;> simp_all

theorem dset_of_dget_none {β : Type} (k : String) (v : β) (l : List (String × β))
    (h : dget k l = none) : dset k v l = l ++ [(k, v)] := by
  induction l with
  | nil => simp [dset]
  | cons kv rest ih =>
      by_cases hk : kv.1 = k
      · simp [dget, hk] at h
      · simp only [dget, hk, if_false] at h
        simp [dset, hk, ih h]


theorem countKey_append {β : Type} (k : String) (a b : List (String × β)) :
    countKey k (a ++ b) = countKey k a + countKey k b := by
  induction a with
  | nil => simp [countKey]
  | cons kv rest ih => simp [countKey, ih]; omega

theorem countKey_eq_zero {β : Type} (k : String) (l : List (String × β))
    (h : ∀ kv ∈ l, kv.1 ≠ k) : countKey k l = 0 := by
  induction l with
  | nil => rfl
  | cons kv rest ih =>
      have hk := h kv (by simp)
      simp [countKey, hk, ih (fun x hx => h x (by simp [hx]))]

theorem countKey_eq_one_of_nodup {β : Type} (k : String) (l : List (String × β))
    (hnd : (l.map Prod.fst).Nodup) (hmem : (dget k l).isSome) :
    countKey k l = 1 := by
  induction l with
  | nil => simp [dget] at hmem
  | cons kv rest ih =>
      simp only [List.map_cons, List.nodup_cons] at hnd
      by_cases hk : kv.1 = k
      · have hz : countKey k rest = 0 := by
          apply countKey_eq_zero
          intro x hx hxk
          apply hnd.1
          rw [hk, ← hxk]
          exact List.mem_map_of_mem Prod.fst hx
        simp [countKey, hk, hz]
      · simp only [dget, hk, if_false] at hmem
        simp [countKey, hk, ih hnd.2 hmem]

/-! ### Helper lemmas about `peak` -/

theorem peak_aux_le (l : List ℚ) (a : ℚ) :
    a ≤ l.foldl (fun b x => max b |x|) a := by
  induction l generalizing a with
  | nil => exact le_refl a
  | cons x rest ih => exact le_trans (le_max_left a |x|) (ih (max a |x|))

theorem abs_le_peak_aux (l : List ℚ) (a x : ℚ) :
    x ∈ l → |x| ≤ l.foldl (fun b y => max b |y|) a := by
  induction l generalizing a with
  | nil => intro hx; simp at hx
  | cons y rest ih =>
      intro hx
      rcases List.mem_cons.mp hx with h | h
      · subst h
        exact le_trans (le_max_right a |x|) (peak_aux_le rest (max a |x|))
      · exact ih (max a |y|) h

theorem abs_le_peak (l : List ℚ) (x : ℚ) (hx : x ∈ l) : |x| ≤ peak l :=
  abs_le_peak_aux l 0 x hx

theorem peak_nonneg (l : List ℚ) : 0 ≤ peak l := peak_aux_le l 0

/-! ### Helper lemmas about the trigger-engine step -/

theorem check_trigger_set (h : AlertHandler) (b : Bool) (v : ℚ) :
    ({ h with is_triggered := b } : AlertHandler).check_trigger v = h.check_trigger v := rfl

theorem stepHandler_check (v : ℚ) (h : AlertHandler) :
    (stepHandler v h).check_trigger v = h.check_trigger v := by
  unfold stepHandler
  split <;> rfl

theorem stepHandler_is_triggered (v : ℚ) (h : AlertHandler) :
    (stepHandler v h).is_triggered = h.check_trigger v := by
  unfold stepHandler
  split
  · rfl
  · rename_i hne
    exact (not_ne_iff.mp hne).symm

theorem stepHandler_of_eq (v : ℚ) (h : AlertHandler)
    (he : h.check_trigger v = h.is_triggered) : stepHandler v h = h := by
  simp [stepHandler, he]

theorem stepHandler_idem (v : ℚ) (h : AlertHandler) :
    stepHandler v (stepHandler v h) = stepHandler v h :=
  stepHandler_of_eq v (stepHandler v h)
    (by rw [stepHandler_check, stepHandler_is_triggered])

theorem handlerCalls_of_eq (v : ℚ) (h : AlertHandler)
    (he : h.check_trigger v = h.is_triggered) : handlerCalls v h = [] := by
  simp [handlerCalls, he]

theorem handlerCalls_step (v : ℚ) (h : AlertHandler) :
    handlerCalls v (stepHandler v h) = [] :=
  handlerCalls_of_eq v (stepHandler v h)
    (by rw [stepHandler_check, stepHandler_is_triggered])

/-! ### Facts about the mixer operations used by several theorems -/

theorem start_handler_of_isSome (m : AudioMixer) (h : AlertHandler)
    (hs : (dget h.id m.active_handlers).isSome) : start_handler m h = m := by
  unfold start_handler
  rw [if_pos hs]

theorem update_handler_phases (m : AudioMixer) (h : AlertHandler) :
    (update_handler m h).phases = m.phases := by
  unfold update_handler
  split <;> rfl

theorem update_handler_rate (m : AudioMixer) (h : AlertHandler) :
    (update_handler m h).sample_rate = m.sample_rate := by
  unfold update_handler
  split <;> rfl

/-! ### Concrete states used by the witness theorems -/






/-! ### Claim theorems -/

/-- C1: For every handler h and every value v, `h.check_trigger v` is true
iff `h.min_threshold ≤ v ≤ h.max_threshold`, both boundaries inclusive; in
particular a handler with `min_threshold = max_threshold = v` is triggered. -/
theorem C1_check_trigger_iff (h : AlertHandler) (v : ℚ) :
    (h.check_trigger v = true ↔ (h.min_threshold ≤ v ∧ v ≤ h.max_threshold)) ∧
    (h.min_threshold = v → h.max_threshold = v → h.check_trigger v = true) := by
  refine ⟨by simp [AlertHandler.check_trigger], ?_⟩
  intro h1 h2
  simp [AlertHandler.check_trigger, h1, h2]

/-- Concrete instantiation of `C1_check_trigger_iff`: a handler with
`min = max = 3/10` is triggered at value `3/10`. -/
theorem C1_witness :
    (AlertHandler.mk "a" (3/10) (3/10) 440 (1/2) "sine" false).check_trigger (3/10) = true :=
  (C1_check_trigger_iff (AlertHandler.mk "a" (3/10) (3/10) 440 (1/2) "sine" false) (3/10)).2
    rfl rfl

/-- C4: The audio callback fills the whole output buffer with exact
zeros (all `frames` samples are 0) whenever the active-handler set is
empty, and also whenever the non-blocking lock acquisition fails; a
buffer of the requested length is always produced. -/
theorem C4_silence_buffer (sinQ : ℚ → ℚ) (piQ : ℚ) (m : AudioMixer)
    (frames : ℕ) (lockAcquired : Bool)
    (hcase : m.active_handlers = [] ∨ lockAcquired = false) :
    (audio_callback sinQ piQ m frames lockAcquired).1 = List.replicate frames 0 ∧
    (audio_callback sinQ piQ m frames lockAcquired).1.length = frames := by
  rcases hcase with hempty | hlock
  · cases lockAcquired <;> simp [audio_callback, hempty]
  · subst hlock
    simp [audio_callback]

/-- Concrete instantiation of `C4_silence_buffer`: an empty active set
produces a zero buffer of length 3. -/
theorem C4_witness :
    (audio_callback (fun x => x) (22/7) mixEmpty 3 true).1 = List.replicate 3 0 :=
  (C4_silence_buffer (fun x => x) (22/7) mixEmpty 3 true (Or.inl rfl)).1

/-- C5 counterexample: in the state `mixA`, where handler id "a" is
active with phase accumulator 5, `stop_handler` removes "a" from the
active set but the phase entry is still present (value 5) afterwards —
the phase-accumulator state is not discarded, contrary to the claim. -/
theorem C5_counterexample :
    dget "a" (stop_handler mixA "a").active_handlers = none ∧
    dget "a" (stop_handler mixA "a").phases = some 5 := by
  decide

/-- C5 (amended): `stop_handler` removes the id from the active-handler
set (a no-op when the id is not active) and leaves the phase map
unchanged: the id's phase entry is retained, not discarded (it is only
reset to 0 by a later `start_handler`). -/
theorem C5_stop_removes_active (m : AudioMixer) (hid : String) :
    dget hid (stop_handler m hid).active_handlers = none ∧
    (stop_handler m hid).phases = m.phases ∧
    (dget hid m.active_handlers = none → stop_handler m hid = m) := by
  refine ⟨?_, ?_, ?_⟩
  · unfold stop_handler
    split
    · exact dget_ddel_self hid m.active_handlers
    · rename_i hn
      exact Option.not_isSome_iff_eq_none.mp hn
  · unfold stop_handler
    split <;> rfl
  · intro hnone
    unfold stop_handler
    rw [hnone]
    simp

/-- Concrete instantiation of `C5_stop_removes_active`: stopping an id
that is not active is a no-op. -/
theorem C5_witness : stop_handler mixA "b" = mixA :=
  (C5_stop_removes_active mixA "b").2.2 (by decide)

/-- C6: When the handler's id is active, `update_handler` replaces the
stored parameters for that id and leaves every phase accumulator
unchanged; when it is not active, it changes nothing.  Consequently the
samples generated for the handler after the update are computed from the
previously accumulated phase (`dget h.id m.phases`, defaulting to 0),
not from phase 0. -/
theorem C6_update_keeps_phase (m : AudioMixer) (h : AlertHandler) :
    ((dget h.id m.active_handlers).isSome →
      (update_handler m h).phases = m.phases ∧
      dget h.id (update_handler m h).active_handlers = some h) ∧
    (dget h.id m.active_handlers = none → update_handler m h = m) ∧
    (∀ (sinQ : ℚ → ℚ) (piQ : ℚ) (frames : ℕ),
      (generate_tone sinQ piQ (update_handler m h) h frames).1 =
        (List.range frames).map
          (toneSample sinQ piQ h m.sample_rate ((dget h.id m.phases).getD 0))) := by
  refine ⟨?_, ?_, ?_⟩
  · intro hs
    refine ⟨update_handler_phases m h, ?_⟩
    unfold update_handler
    rw [if_pos hs]
    exact dget_dset_self h.id h m.active_handlers
  · intro hnone
    unfold update_handler
    rw [hnone]
    simp
  · intro sinQ piQ frames
    simp only [generate_tone, update_handler_phases, update_handler_rate]
    cases hp : dget h.id m.phases with
    | some p => simp [hp]
    | none => simp [hp, dget_dset_self]

/-- Concrete instantiation of `C6_update_keeps_phase`: editing the
active handler "a" keeps the phase map (phase 5 preserved) and stores
the new parameters. -/
theorem C6_witness :
    (update_handler mixA hA2).phases = mixA.phases ∧
    dget hA2.id (update_handler mixA hA2).active_handlers = some hA2 :=
  (C6_update_keeps_phase mixA hA2).1 (by decide)

/-- C7: `start_handler` is idempotent: a second call with a handler of
the same id leaves the whole mixer state (including phases) unchanged;
for a well-formed active dict there is exactly one active entry for the
id afterwards, and a fresh start initializes the id's phase to 0. -/
theorem C7_start_idempotent (m : AudioMixer) (h : AlertHandler) :
    start_handler (start_handler m h) h = start_handler m h ∧
    ((m.active_handlers.map Prod.fst).Nodup →
      countKey h.id (start_handler m h).active_handlers = 1) ∧
    (dget h.id m.active_handlers = none →
      dget h.id (start_handler m h).phases = some 0) := by
  have hactive : (dget h.id (start_handler m h).active_handlers).isSome := by
    unfold start_handler
    split
    · assumption
    · simp [dget_dset_self]
  refine ⟨start_handler_of_isSome (start_handler m h) h hactive, ?_, ?_⟩
  · intro hnd
    unfold start_handler
    by_cases hs : (dget h.id m.active_handlers).isSome
    · rw [if_pos hs]
      exact countKey_eq_one_of_nodup h.id m.active_handlers hnd hs
    · rw [if_neg hs]
      have hnone := Option.not_isSome_iff_eq_none.mp hs
      simp only [dset_of_dget_none h.id h m.active_handlers hnone, countKey_append]
      have hz := countKey_eq_zero h.id m.active_handlers
        ((dget_eq_none_iff h.id m.active_handlers).mp hnone)
      simp [hz, countKey]
  · intro hnone
    unfold start_handler
    rw [if_neg (by simp [hnone])]
    exact dget_dset_self h.id 0 m.phases

/-- Concrete instantiation of `C7_start_idempotent`: starting `hA` on an
empty mixer yields one active entry for "a" and phase 0. -/
theorem C7_witness :
    countKey hA.id (start_handler mixEmpty hA).active_handlers = 1 ∧
    dget hA.id (start_handler mixEmpty hA).phases = some 0 :=
  ⟨(C7_start_idempotent mixEmpty hA).2.1 (by decide),
   (C7_start_idempotent mixEmpty hA).2.2 (by decide)⟩

/-- C8: After every evaluation of an axis value, every handler in the
updated widget has `is_triggered` set exactly to the trigger check
against the value stored by that evaluation (the clamped axis value) —
it is derived, never set independently. -/
theorem C8_is_triggered_invariant (w : AxisWidget) (v : ℚ) (h : AlertHandler)
    (hmem : h ∈ (update_value w v).1.handlers) :
    h.is_triggered = h.check_trigger (update_value w v).1.value := by
  simp only [update_value] at hmem ⊢
  rcases List.mem_map.mp hmem with ⟨h0, _, rfl⟩
  rw [stepHandler_is_triggered, stepHandler_check]

/-- Concrete instantiation of `C8_is_triggered_invariant` on the
one-handler widget `wA` at value 1/2. -/
theorem C8_witness :
    (stepHandler (clamp01 (1/2)) hA).is_triggered =
      (stepHandler (clamp01 (1/2)) hA).check_trigger (update_value wA (1/2)).1.value :=
  C8_is_triggered_invariant wA (1/2) (stepHandler (clamp01 (1/2)) hA)
    (by simp [update_value, wA])

/-- C9: When the backend cannot open the requested device,
`select_device` returns 0 and leaves no device selected: the joystick
handle is cleared, the axis count is 0, the axis-value snapshot is
empty (and the polling thread is not running). -/
theorem C9_select_device_failure (backend : ℕ → Option ℕ) (r : JoystickReader)
    (idx : ℕ) (hfail : backend idx = none) :
    select_device backend r idx = (JoystickReader.mk none 0 [] false, 0) := by
  simp [select_device, hfail]

/-- Concrete instantiation of `C9_select_device_failure`: a backend that
always fails clears a previously selected device. -/
theorem C9_witness :
    select_device (fun _ => none) (JoystickReader.mk (some 3) 4 [0, 0, 0, 0] true) 2 =
      (JoystickReader.mk none 0 [] false, 0) :=
  C9_select_device_failure (fun _ => none) (JoystickReader.mk (some 3) 4 [0, 0, 0, 0] true) 2 rfl

/-- C10: `_generate_tone` is total over waveform strings: for a handler
whose waveform is any string other than "sine", "sawtooth" or "square",
it produces exactly what it produces for the same handler with waveform
"sine" — a sine wave at the handler's frequency and volume. -/
theorem C10_waveform_fallback (sinQ : ℚ → ℚ) (piQ : ℚ) (m : AudioMixer)
    (h : AlertHandler) (frames : ℕ)
    (h1 : h.waveform ≠ "sine") (h2 : h.waveform ≠ "sawtooth")
    (h3 : h.waveform ≠ "square") :
    generate_tone sinQ piQ m h frames =
      generate_tone sinQ piQ m { h with waveform := "sine" } frames := by
  simp only [generate_tone]
  congr 1
  apply List.map_congr_left
  intro i _
  simp [toneSample, h1, h2, h3]

/-- Concrete instantiation of `C10_waveform_fallback` for the unknown
waveform string "triangle". -/
theorem C10_witness :
    generate_tone (fun x => x) (22/7) mixEmpty
        (AlertHandler.mk "c" 0 1 440 1 "triangle" false) 2 =
      generate_tone (fun x => x) (22/7) mixEmpty
        (AlertHandler.mk "c" 0 1 440 1 "sine" false) 2 :=
  C10_waveform_fallback (fun x => x) (22/7) mixEmpty
    (AlertHandler.mk "c" 0 1 440 1 "triangle" false) 2
    (by decide) (by decide) (by decide)

/-! ### Counting start calls (for C2) -/



theorem startCount_append (hid : String) (a b : List MixerCall) :
    startCount hid (a ++ b) = startCount hid a + startCount hid b := by
  simp [startCount, List.filter_append]

theorem stepHandler_id (v : ℚ) (h : AlertHandler) :
    (stepHandler v h).id = h.id := by
  unfold stepHandler
  split <;> rfl

theorem startCount_handlerCalls_ne (v : ℚ) (h : AlertHandler) (hid : String)
    (hne : h.id ≠ hid) : startCount hid (handlerCalls v h) = 0 := by
  unfold handlerCalls
  split
  · split
    · simp [startCount, isStartFor, stepHandler_id, hne]
    · simp [startCount, isStartFor]
  · simp [startCount]

theorem startCount_handlerCalls_rising (v : ℚ) (h : AlertHandler)
    (hf : h.is_triggered = false) (ht : h.check_trigger v = true) :
    startCount h.id (handlerCalls v h) = 1 := by
  unfold handlerCalls
  rw [ht, hf]
  simp [startCount, isStartFor, stepHandler_id]

theorem flatten_eq_nil_of_all_nil {α β : Type} (f : α → List β) (l : List α)
    (hall : ∀ a ∈ l, f a = []) : (l.map f).flatten = [] := by
  induction l with
  | nil => rfl
  | cons a rest ih =>
      simp only [List.map_cons, List.flatten_cons]
      rw [hall a (by simp), ih (fun x hx => hall x (by simp [hx]))]
      rfl

theorem startCount_flatten_zero (hid : String) (v : ℚ) (hs : List AlertHandler)
    (hall : ∀ h ∈ hs, h.id ≠ hid) :
    startCount hid ((hs.map (handlerCalls v)).flatten) = 0 := by
  induction hs with
  | nil => rfl
  | cons a rest ih =>
      simp only [List.map_cons, List.flatten_cons]
      rw [startCount_append, startCount_handlerCalls_ne v a hid (hall a (by simp)),
        ih (fun x hx => hall x (by simp [hx]))]

theorem startCount_run (v : ℚ) (h : AlertHandler) :
    ∀ hs : List AlertHandler, h ∈ hs → (hs.map AlertHandler.id).Nodup →
    h.is_triggered = false → h.check_trigger v = true →
    startCount h.id ((hs.map (handlerCalls v)).flatten) = 1 := by
  intro hs
  induction hs with
  | nil => intro hmem; simp at hmem
  | cons a rest ih =>
      intro hmem hnd hf ht
      simp only [List.map_cons, List.nodup_cons] at hnd
      simp only [List.map_cons, List.flatten_cons]
      rw [startCount_append]
      rcases List.mem_cons.mp hmem with heq | hmem2
      · subst heq
        rw [startCount_handlerCalls_rising v h hf ht]
        have hz : startCount h.id ((rest.map (handlerCalls v)).flatten) = 0 := by
          apply startCount_flatten_zero
          intro x hx hxid
          apply hnd.1
          rw [← hxid]
          exact List.mem_map_of_mem AlertHandler.id hx
        rw [hz]
      · have hne : a.id ≠ h.id := by
          intro he
          apply hnd.1
          rw [he]
          exact List.mem_map_of_mem AlertHandler.id hmem2
        rw [startCount_handlerCalls_ne v a h.id hne, ih hmem2 hnd.2 hf ht]

theorem update_value_calls (w : AxisWidget) (v : ℚ) :
    (update_value w v).2 = (w.handlers.map (handlerCalls (clamp01 v))).flatten := rfl

theorem update_value_twice (w : AxisWidget) (v : ℚ) :
    update_value (update_value w v).1 v = ((update_value w v).1, []) := by
  simp only [update_value, Prod.mk.injEq, AxisWidget.mk.injEq]
  refine ⟨⟨trivial, ?_⟩, ?_⟩
  · rw [List.map_map]
    apply List.map_congr_left
    intro a _
    exact stepHandler_idem (clamp01 v) a
  · rw [List.map_map]
    apply flatten_eq_nil_of_all_nil
    intro a _
    exact handlerCalls_step (clamp01 v) a

/-- C2: Trigger evaluation is edge-triggered.  (i) A handler whose fresh
trigger boolean (computed from the clamped new value) equals its stored
`is_triggered` state contributes no mixer call to the evaluation step.
(ii) Re-evaluating the same value immediately after an evaluation
changes nothing and issues no mixer calls at all.  (iii) Hence for a
widget with distinct handler ids, an untriggered handler that is in
range produces exactly one `start` call for its id over two consecutive
evaluations of the same value, not two. -/
theorem C2_edge_triggered (w : AxisWidget) (v : ℚ) :
    (∀ h ∈ w.handlers, h.check_trigger (clamp01 v) = h.is_triggered →
      handlerCalls (clamp01 v) h = []) ∧
    update_value (update_value w v).1 v = ((update_value w v).1, []) ∧
    (∀ h ∈ w.handlers, (w.handlers.map AlertHandler.id).Nodup →
      h.is_triggered = false → h.check_trigger (clamp01 v) = true →
      startCount h.id
        ((update_value w v).2 ++ (update_value (update_value w v).1 v).2) = 1) := by
  refine ⟨?_, update_value_twice w v, ?_⟩
  · intro h _ he
    exact handlerCalls_of_eq (clamp01 v) h he
  · intro h hmem hnd hf ht
    have h2 : (update_value (update_value w v).1 v).2 = [] :=
      congrArg Prod.snd (update_value_twice w v)
    rw [startCount_append, h2, update_value_calls]
    rw [startCount_run (clamp01 v) h w.handlers hmem hnd hf ht]
    simp [startCount]

/-- Concrete instantiation of `C2_edge_triggered`: on the one-handler
widget `wA`, feeding the in-range value 1/2 twice produces exactly one
`start` call for handler "a". -/
theorem C2_witness :
    startCount hA.id
      ((update_value wA (1/2)).2 ++ (update_value (update_value wA (1/2)).1 (1/2)).2) = 1 :=
  (C2_edge_triggered wA (1/2)).2.2 hA (by simp [wA]) (by simp [wA]) rfl
    (by
      simp only [hA, AlertHandler.check_trigger, decide_eq_true_eq]
      refine ⟨le_max_left 0 _, ?_⟩
      apply max_le
      · norm_num
      · exact min_le_left 1 _)

/-! ### The normalization branch of the audio callback (for C3) -/

theorem audio_callback_out (sinQ : ℚ → ℚ) (piQ : ℚ) (m : AudioMixer)
    (frames : ℕ) (hne : m.active_handlers.isEmpty = false) :
    (audio_callback sinQ piQ m frames true).1 =
      if 1 < peak (mixTones sinQ piQ m frames).1 then
        (mixTones sinQ piQ m frames).1.map
          (fun x => x / peak (mixTones sinQ piQ m frames).1)
      else (mixTones sinQ piQ m frames).1 := by
  simp [audio_callback, hne]

/-- C3: Whenever the audio callback runs with the lock acquired and a
non-empty active set, the summed buffer is peak-normalized: if its peak
absolute sample exceeds 1 the whole buffer is scaled by the reciprocal
of the peak, otherwise it is emitted unchanged; in either case no
output sample has absolute value greater than 1. -/
theorem C3_peak_normalized (sinQ : ℚ → ℚ) (piQ : ℚ) (m : AudioMixer)
    (frames : ℕ) (hne : m.active_handlers.isEmpty = false) :
    (1 < peak (mixTones sinQ piQ m frames).1 →
      (audio_callback sinQ piQ m frames true).1 =
        (mixTones sinQ piQ m frames).1.map
          (fun x => x / peak (mixTones sinQ piQ m frames).1)) ∧
    (¬ 1 < peak (mixTones sinQ piQ m frames).1 →
      (audio_callback sinQ piQ m frames true).1 = (mixTones sinQ piQ m frames).1) ∧
    (∀ s ∈ (audio_callback sinQ piQ m frames true).1, |s| ≤ 1) := by
  refine ⟨?_, ?_, ?_⟩
  · intro hp
    rw [audio_callback_out sinQ piQ m frames hne, if_pos hp]
  · intro hp
    rw [audio_callback_out sinQ piQ m frames hne, if_neg hp]
  · intro s hs
    rw [audio_callback_out sinQ piQ m frames hne] at hs
    by_cases hp : 1 < peak (mixTones sinQ piQ m frames).1
    · rw [if_pos hp] at hs
      rcases List.mem_map.mp hs with ⟨x, hx, rfl⟩
      have hppos : 0 < peak (mixTones sinQ piQ m frames).1 := lt_trans one_pos hp
      rw [abs_div, abs_of_pos hppos, div_le_one hppos]
      exact abs_le_peak (mixTones sinQ piQ m frames).1 x hx
    · rw [if_neg hp] at hs
      exact le_trans (abs_le_peak (mixTones sinQ piQ m frames).1 s hs) (not_lt.mp hp)

/-- Concrete instantiation of `C3_peak_normalized`: with one active
handler and a backend sine that returns 0, the mixed one-sample buffer
has peak 0 ≤ 1 and is emitted unchanged. -/
theorem C3_witness :
    (audio_callback (fun _ => 0) (22/7) mixA 1 true).1 =
      (mixTones (fun _ => 0) (22/7) mixA 1).1 :=
  (C3_peak_normalized (fun _ => 0) (22/7) mixA 1 rfl).2.1
    (by
      have hr : List.range 1 = [0] := rfl
      have hm : (mixTones (fun _ => 0) (22/7) mixA 1).1 = [0] := by
        simp [mixTones, mixA, generate_tone, hA, dget, toneSample, addBuf, hr]
      rw [hm]
      simp [peak])
